import Mathlib

/-!
Shallow embedding of the terminal-session lifecycle controller
(`tscreen_unix.go`) and the pluggable TTY driver (`driver.go`) of the
tcell fork, together with proofs settling the specification claims.

Modelling conventions:
* Go channels are modelled by allocation identifiers (`Nat`); `make(chan ...)`
  draws a fresh identifier from the session's `nextStop` counter, so two
  channels made in different engage cycles are distinct objects.  A nil
  channel is `Option.none`.
* `*os.File` handles are modelled by their file-descriptor numbers (`Nat`).
* External calls whose results the controller merely consumes
  (`term.MakeRaw`, `term.GetSize`, `term.GetState`, `driver.WinSize`,
  `driver.Init`, `os.OpenFile`) are parameters collected in an `Env`
  record; each field holds the result that one call returns.
* Side effects the controller performs (raw-mode switch, blocking-mode
  toggles, capability-string emission via `TPuts`, mouse/paste toggles,
  driver engage/disengage hooks, starting/joining the loop pair, byte
  writes, attribute restoration, signal (de)registration) are recorded in
  order as an event trace `List Event`.
* A Go runtime panic (here: `close` of a nil channel) is modelled by the
  function returning `Option.none` for the resulting state.
-/

/-- Errors.  Go compares `err != ErrWinSizeUnused` by object identity of the
sentinel; the sentinel is its own constructor, every other error made by
`errors.New` or returned from the OS is `Err.mk`. -/
inductive Err where
  | errWinSizeUnused : Err
  | mk : String → Err
deriving DecidableEq, Repr

/-- The symbolic capability strings the controller emits via `TPuts`
(terminfo fields of `t.ti`). -/
inductive Cap where
  | enterCA | enterKeypad | hideCursor | enableAcs | clear
  | showCursor | attrOff | exitCA | exitKeypad
deriving DecidableEq, Repr

/-- The two concurrent loops started by `engage`. -/
inductive LoopKind where
  | inputLoop | mainLoop
deriving DecidableEq, Repr

/-- Observable side effects of the controller and the default driver, in
program order. -/
inductive Event where
  /-- Call `term.MakeRaw(int(t.in.Fd()))` was made (the raw-mode switch). -/
  | makeRaw : Event
  /-- Call `t.cells.Resize(w, h)`. -/
  | resizeCells : Int → Int → Event
  /-- Call `t.nonBlocking(b)`. -/
  | nonBlocking : Bool → Event
  /-- Call `t.enableMouse(flags)`. -/
  | enableMouse : Int → Event
  /-- Call `t.enablePasting(b)`. -/
  | enablePasting : Bool → Event
  /-- Call `t.driver.Engage()`. -/
  | driverEngage : Event
  /-- Call `t.driver.Disengage()`. -/
  | driverDisengage : Event
  /-- Call `t.TPuts(cap)`: one capability string emitted. -/
  | tputs : Cap → Event
  /-- Statement `go t.inputLoop(stopQ)` or `go t.mainLoop(stopQ)`: a loop is started,
  handed the stop channel with the given identifier. -/
  | startLoop : LoopKind → Nat → Event
  /-- Call `close(stopQ)` on the channel with the given identifier. -/
  | closeStop : Nat → Event
  /-- Call `t.wg.Wait()`: the caller blocks until both loops have joined. -/
  | waitLoops : Event
  /-- Call `t.writeString(s)`: raw bytes written to the output stream. -/
  | writeBytes : List Nat → Event
  /-- Call `term.Restore(fd, saved)`: saved attributes restored on `fd`. -/
  | restore : Nat → Option Nat → Event
  /-- Call `signal.Notify(ch, SIGWINCH)` by the default driver. -/
  | signalNotify : Option Nat → Event
  /-- Call `signal.Stop(ch)` by the default driver. -/
  | signalStop : Option Nat → Event
deriving DecidableEq, Repr

/-- The mutable state of `tScreen` that the embedded functions touch.
`stopQ` is the stop-signal channel (`none` = nil = Disengaged, `some id` =
Engaged); `nextStop` is the fresh-channel allocator; `cells` the dimensions
of the shared cell buffer; `saved` the `term.State` snapshot captured at
startup (`none` = nil); `mouseFlags` and `pasteEnabled` the feature flags;
`inFd` and `outFd` the descriptors of `t.in` and `t.out`. -/
structure Session where
  stopQ : Option Nat
  nextStop : Nat
  cells : Int × Int
  saved : Option Nat
  mouseFlags : Int
  pasteEnabled : Bool
  inFd : Nat
  outFd : Nat
deriving DecidableEq, Repr

/-- Results of the external calls the controller consumes.  `termGetSize`
and `getState` are functions of the file descriptor they are invoked on,
so that queries on distinct handles can return distinct results. -/
structure Env where
  /-- Error result of `term.MakeRaw` (`none` is success). -/
  makeRaw : Option Err
  /-- Result `(w, h, err)` of `t.driver.WinSize()`. -/
  driverWinSize : Int × Int × Option Err
  /-- Result `(w, h, err)` of `term.GetSize(fd)`. -/
  termGetSize : Nat → Int × Int × Option Err
  /-- Result of `t.driver.Init(t.sigwinch)`: the two handles, or an error. -/
  driverInit : Except Err (Nat × Nat)
  /-- Result of `term.GetState(fd)` (on error Go returns a nil state). -/
  getState : Nat → Except Err Nat
  /-- Result of `os.OpenFile("/dev/tty", os.O_RDONLY, 0)`. -/
  openTTYRead : Except Err Nat
  /-- Result of `os.OpenFile("/dev/tty", os.O_WRONLY, 0)`. -/
  openTTYWrite : Except Err Nat

/-- Function `tScreen.getWinSize`: asks the driver first; any result whose error is
not the identity-compared sentinel `ErrWinSizeUnused` is returned
unchanged, otherwise falls back to `term.GetSize(int(t.in.Fd()))`.
Note the source queries the input handle here. -/
def getWinSize (env : Env) (t : Session) : Int × Int × Option Err :=
  let r := env.driverWinSize
  if r.2.2 ≠ some Err.errWinSizeUnused then r
  else env.termGetSize t.inFd

/-- Function `tScreen.engage`: the Disengaged → Engaged transition.  Returns the Go
error result, the session state after the call, and the trace of side
effects in program order. -/
def engage (env : Env) (t : Session) : Option Err × Session × List Event :=
  if t.stopQ.isSome then
    (some (Err.mk "already engaged"), t, [])
  else
    match env.makeRaw with
    | some e => (some e, t, [Event.makeRaw])
    | none =>
      let ws := getWinSize env t
      let w := ws.1
      let h := ws.2.1
      let e := ws.2.2
      let t1 := if e = none ∧ w ≠ 0 ∧ h ≠ 0 then { t with cells := (w, h) } else t
      let ev1 := if e = none ∧ w ≠ 0 ∧ h ≠ 0 then [Event.resizeCells w h] else []
      let stopId := t1.nextStop
      let t2 := { t1 with stopQ := some stopId, nextStop := t1.nextStop + 1 }
      (none, t2,
        Event.makeRaw :: ev1 ++
        [Event.nonBlocking false, Event.enableMouse t.mouseFlags,
         Event.enablePasting t.pasteEnabled, Event.driverEngage,
         Event.tputs Cap.enterCA, Event.tputs Cap.enterKeypad,
         Event.tputs Cap.hideCursor, Event.tputs Cap.enableAcs,
         Event.tputs Cap.clear,
         Event.startLoop LoopKind.inputLoop stopId,
         Event.startLoop LoopKind.mainLoop stopId])

/-- Function `tScreen.disengage`: flips to non-blocking, saves and nils the stop
channel, closes it, waits for the loop pair, then runs the restore
sequence.  The source closes the saved channel unconditionally; closing a
nil channel panics in Go, modelled by returning `none` for the state (the
only effect performed before the panic is the non-blocking flip). -/
def disengage (t : Session) : Option Session × List Event :=
  match t.stopQ with
  | none => (none, [Event.nonBlocking true])
  | some id =>
    (some { t with stopQ := none, cells := (0, 0) },
     [Event.nonBlocking true, Event.closeStop id, Event.waitLoops,
      Event.driverDisengage, Event.nonBlocking false,
      Event.resizeCells 0 0,
      Event.tputs Cap.showCursor, Event.tputs Cap.attrOff,
      Event.tputs Cap.clear, Event.tputs Cap.exitCA,
      Event.tputs Cap.exitKeypad,
      Event.enableMouse 0, Event.enablePasting false,
      Event.restore t.inFd t.saved])

/-- Function `tScreen.finalize`: just calls `disengage`. -/
def finalize (t : Session) : Option Session × List Event :=
  disengage t

/-- Function `tScreen.initialize` (named `screenInit` here): runs `driver.Init`,
propagating its error; on success captures the terminal state with
`term.GetState` into `t.saved` (Go assigns the nil state on a query error)
and returns nil regardless of the query's outcome. -/
def screenInit (env : Env) (t : Session) : Option Err × Session :=
  match env.driverInit with
  | Except.error e => (some e, t)
  | Except.ok p =>
    let t1 := { t with inFd := p.1, outFd := p.2 }
    match env.getState t1.inFd with
    | Except.ok s => (none, { t1 with saved := some s })
    | Except.error _ => (none, { t1 with saved := none })

/-- Function `tScreen.Beep`: writes the single byte 7 with `writeString` and returns
nil. -/
def Beep (t : Session) : Option Err × List Event :=
  let _ := t
  (none, [Event.writeBytes [7]])

/-- State of `defaultTermDriver`: the stored resize channel and output
handle (both nil until `Init` stores them). -/
structure DefaultTermDriver where
  winch : Option Nat
  out : Option Nat
deriving DecidableEq, Repr

/-- Function `defaultTermDriver.Engage`: registers the stored channel for SIGWINCH. -/
def defaultEngage (d : DefaultTermDriver) : List Event :=
  [Event.signalNotify d.winch]

/-- Function `defaultTermDriver.Disengage`: unregisters the stored channel. -/
def defaultDisengage (d : DefaultTermDriver) : List Event :=
  [Event.signalStop d.winch]

/-- Function `defaultTermDriver.Init`: opens `/dev/tty` read-only then write-only
(returning early on either failure, with the handles opened so far), then
stores the resize channel and the output handle and calls its own
`Engage`.  Returns the Go results `(in, out, err)`, the driver state after
the call, and the trace. -/
def defaultInit (env : Env) (winch : Nat) (d : DefaultTermDriver) :
    (Option Nat × Option Nat × Option Err) × DefaultTermDriver × List Event :=
  match env.openTTYRead with
  | Except.error e => ((none, none, some e), d, [])
  | Except.ok i =>
    match env.openTTYWrite with
    | Except.error e => ((some i, none, some e), d, [])
    | Except.ok o =>
      let d1 : DefaultTermDriver := { winch := some winch, out := some o }
      ((some i, some o, none), d1, defaultEngage d1)

/-- Function `defaultTermDriver.WinSize`: always the sentinel. -/
def defaultWinSize : Int × Int × Option Err :=
  (0, 0, some Err.errWinSizeUnused)

/-- A concrete Disengaged session, as left by startup. -/
def sessStart : Session :=
  { stopQ := none, nextStop := 0, cells := (0, 0), saved := some 11,
    mouseFlags := 2, pasteEnabled := true, inFd := 0, outFd := 1 }

/-- A concrete Engaged session (stop channel 5 live). -/
def sessEngaged : Session :=
  { stopQ := some 5, nextStop := 6, cells := (80, 24), saved := some 11,
    mouseFlags := 0, pasteEnabled := false, inFd := 0, outFd := 1 }

/-- A concrete environment in which every external call succeeds; the
driver reports the sentinel so sizing falls back to the platform query. -/
def envOk : Env :=
  { makeRaw := none,
    driverWinSize := (0, 0, some Err.errWinSizeUnused),
    termGetSize := fun _ => (80, 24, none),
    driverInit := Except.ok (0, 1),
    getState := fun _ => Except.ok 11,
    openTTYRead := Except.ok 3,
    openTTYWrite := Except.ok 4 }

/-- Claim C1: calling `engage` while the session is already Engaged (its
stop signal is non-nil) returns the "already engaged" error and leaves the
session untouched — the state stays Engaged with the original stop
channel, and the trace is empty, so no raw-mode switch, no capability
emission and no loop start occur. -/
theorem engage_already_engaged (env : Env) (t : Session) (id : Nat)
    (h : t.stopQ = some id) :
    engage env t = (some (Err.mk "already engaged"), t, []) := by
  simp [engage, h]

/-- Witness for C1 at a concrete Engaged session. -/
theorem engage_already_engaged_witness :
    engage envOk sessEngaged = (some (Err.mk "already engaged"), sessEngaged, []) :=
  engage_already_engaged envOk sessEngaged 5 rfl

/-- Claim C2 counterexample: at a concrete Disengaged session (stop signal
nil), `disengage` does not return normally with the state unmodified — it
reaches `close` on the nil stop channel, which panics in Go (modelled by a
`none` resulting state), refuting "returns normally without panicking and
without modifying Session state". -/
theorem disengage_on_disengaged_cex :
    (disengage sessStart).1 = none ∧ (disengage sessStart).1 ≠ some sessStart := by
  exact ⟨rfl, by decide⟩

/-- Claim C2 (amended): calling `disengage` while the session is
Disengaged (stop signal nil) is not a guarded no-op: the code
unconditionally closes the saved stop channel, and closing a nil channel
panics; the only step performed before the panic is the switch of the TTY
to non-blocking mode. -/
theorem disengage_nil_stop_panics (t : Session) (h : t.stopQ = none) :
    disengage t = (none, [Event.nonBlocking true]) := by
  simp [disengage, h]

/-- Witness for the amended C2 at a concrete Disengaged session. -/
theorem disengage_nil_stop_panics_witness :
    disengage sessStart = (none, [Event.nonBlocking true]) :=
  disengage_nil_stop_panics sessStart rfl

/-- Claim C7: if the raw-mode switch (`term.MakeRaw`) fails during
`engage`, that error is returned unchanged and nothing else happens: the
session is returned unmodified (the stop signal stays nil, so the state
remains Disengaged) and the trace records only the raw-mode attempt — no
resize, no mouse/paste toggles, no `Driver.Engage`, no capability strings,
no loops. -/
theorem engage_raw_failure (env : Env) (t : Session) (e : Err)
    (h0 : t.stopQ = none) (h1 : env.makeRaw = some e) :
    engage env t = (some e, t, [Event.makeRaw]) := by
  simp [engage, h0, h1]

/-- A concrete environment in which the raw-mode switch fails. -/
def envRawFail : Env :=
  { envOk with makeRaw := some (Err.mk "operation not permitted") }

/-- Witness for C7 at a concrete session and failing environment. -/
theorem engage_raw_failure_witness :
    engage envRawFail sessStart =
      (some (Err.mk "operation not permitted"), sessStart, [Event.makeRaw]) :=
  engage_raw_failure envRawFail sessStart (Err.mk "operation not permitted") rfl rfl

/-- Claim C8: `Beep`, in every session state, writes exactly one byte,
equal to decimal 7, to the output stream, and returns a nil error. -/
theorem beep_writes_single_bell (t : Session) :
    Beep t = (none, [Event.writeBytes [7]]) ∧ [(7 : Nat)].length = 1 := by
  exact ⟨rfl, rfl⟩

/-- Witness for C8 at a concrete session. -/
theorem beep_writes_single_bell_witness :
    Beep sessStart = (none, [Event.writeBytes [7]]) ∧ [(7 : Nat)].length = 1 :=
  beep_writes_single_bell sessStart

/-- Claim C3: for every `disengage` from the Engaged state, the trace
starts with exactly the three steps flip-to-non-blocking, close of the
stop channel, join of both loops — in that order, with nothing before or
between them — and all five exit capability strings are emitted only in
the segment after the join, whose final event is the restoration of the
saved terminal attributes (so no capability emission or attribute
restoration happens before both loops have exited). -/
theorem disengage_shutdown_order (t : Session) (id : Nat)
    (h : t.stopQ = some id) :
    ∃ t' post,
      disengage t = (some t',
        [Event.nonBlocking true, Event.closeStop id, Event.waitLoops] ++ post) ∧
      Event.tputs Cap.showCursor ∈ post ∧
      Event.tputs Cap.attrOff ∈ post ∧
      Event.tputs Cap.clear ∈ post ∧
      Event.tputs Cap.exitCA ∈ post ∧
      Event.tputs Cap.exitKeypad ∈ post ∧
      (∀ c : Cap, Event.tputs c ∈ post → Event.tputs c ∈ post.dropLast) ∧
      post.getLast? = some (Event.restore t.inFd t.saved) := by
  simp only [disengage, h]
  refine ⟨_, _, rfl, by simp, by simp, by simp, by simp, by simp, ?_, by simp⟩
  intro c hc
  cases c <;> simp_all

/-- Witness for C3 at a concrete Engaged session. -/
theorem disengage_shutdown_order_witness :
    ∃ t' post,
      disengage sessEngaged = (some t',
        [Event.nonBlocking true, Event.closeStop 5, Event.waitLoops] ++ post) ∧
      Event.tputs Cap.showCursor ∈ post ∧
      Event.tputs Cap.attrOff ∈ post ∧
      Event.tputs Cap.clear ∈ post ∧
      Event.tputs Cap.exitCA ∈ post ∧
      Event.tputs Cap.exitKeypad ∈ post ∧
      (∀ c : Cap, Event.tputs c ∈ post → Event.tputs c ∈ post.dropLast) ∧
      post.getLast? = some (Event.restore sessEngaged.inFd sessEngaged.saved) :=
  disengage_shutdown_order sessEngaged 5 rfl

/-- A session whose input and output handles are distinct ttys. -/
def sessTwoTTY : Session :=
  { stopQ := none, nextStop := 0, cells := (0, 0), saved := none,
    mouseFlags := 0, pasteEnabled := false, inFd := 3, outFd := 4 }

/-- An environment whose driver reports the `ErrWinSizeUnused` sentinel
and where the platform query gives a different geometry on the input
handle (fd 3: 80 by 24) than on the output handle (fd 4: 100 by 50). -/
def envTwoTTY : Env :=
  { envOk with
    driverWinSize := (0, 0, some Err.errWinSizeUnused),
    termGetSize := fun fd => if fd = 3 then (80, 24, none) else (100, 50, none) }

/-- Claim C5 evaluation: when the driver returns the sentinel
`ErrWinSizeUnused`, `getWinSize` performs the platform fallback query on
the input handle `t.in`, not on the output handle as both the claim and
the `TermDriver.WinSize` doc comment state: with distinct handles whose
geometries differ, the result is the input handle's geometry. -/
theorem getWinSize_queries_input_handle :
    sessTwoTTY.inFd ≠ sessTwoTTY.outFd ∧
    envTwoTTY.driverWinSize = (0, 0, some Err.errWinSizeUnused) ∧
    envTwoTTY.termGetSize sessTwoTTY.inFd = (80, 24, none) ∧
    envTwoTTY.termGetSize sessTwoTTY.outFd = (100, 50, none) ∧
    getWinSize envTwoTTY sessTwoTTY = (80, 24, none) := by
  exact ⟨by decide, rfl, rfl, rfl, rfl⟩

/-- Claim C9: `tScreen.initialize` (`screenInit`) fails exactly when the
driver's `Init` fails, propagating that error with the session untouched;
when `Init` succeeds the handles are stored and the call returns nil even
if the `term.GetState` snapshot query fails, in which case the query error
is discarded and the saved-attributes field is left nil. -/
theorem screenInit_error_iff (env : Env) (t : Session) :
    ((screenInit env t).1 = none ↔ ∃ p, env.driverInit = Except.ok p) ∧
    (∀ e, env.driverInit = Except.error e → screenInit env t = (some e, t)) ∧
    (∀ i o e, env.driverInit = Except.ok (i, o) → env.getState i = Except.error e →
      screenInit env t = (none, { t with inFd := i, outFd := o, saved := none })) := by
  refine ⟨?_, ?_, ?_⟩
  · cases hd : env.driverInit with
    | error e => simp [screenInit, hd]
    | ok p =>
      cases hs : env.getState p.1 <;> simp [screenInit, hd, hs]
  · intro e hd
    simp [screenInit, hd]
  · intro i o e hd hs
    simp [screenInit, hd, hs]

/-- A concrete environment where the terminal-state snapshot query fails. -/
def envStateFail : Env :=
  { envOk with getState := fun _ => Except.error (Err.mk "inappropriate ioctl") }

/-- Witness for C9: with a failing snapshot query, `screenInit` still
returns nil and leaves the saved attributes unset. -/
theorem screenInit_error_iff_witness :
    screenInit envStateFail sessStart =
      (none, { sessStart with inFd := 0, outFd := 1, saved := none }) :=
  (screenInit_error_iff envStateFail sessStart).2.2 0 1
    (Err.mk "inappropriate ioctl") rfl rfl

/-- Claim C10: when both opens of `/dev/tty` succeed, the default driver's
`Init` returns the two handles with a nil error, stores the resize channel
and the output handle, and its trace already contains the SIGWINCH
registration of that channel (its own `Engage` is called during `Init`);
afterwards `Engage` registers and `Disengage` unregisters exactly the
stored channel. -/
theorem defaultInit_registers_stored_winch (env : Env) (w : Nat)
    (d : DefaultTermDriver) (i o : Nat)
    (hr : env.openTTYRead = Except.ok i) (hw : env.openTTYWrite = Except.ok o) :
    defaultInit env w d =
      ((some i, some o, none), { winch := some w, out := some o },
       [Event.signalNotify (some w)]) ∧
    defaultEngage { winch := some w, out := some o } =
      [Event.signalNotify (some w)] ∧
    defaultDisengage { winch := some w, out := some o } =
      [Event.signalStop (some w)] := by
  refine ⟨?_, rfl, rfl⟩
  simp [defaultInit, hr, hw, defaultEngage]

/-- Witness for C10 at a concrete environment and channel. -/
theorem defaultInit_registers_stored_winch_witness :
    defaultInit envOk 9 { winch := none, out := none } =
      ((some 3, some 4, none), { winch := some 9, out := some 4 },
       [Event.signalNotify (some 9)]) ∧
    defaultEngage { winch := some 9, out := some 4 } =
      [Event.signalNotify (some 9)] ∧
    defaultDisengage { winch := some 9, out := some 4 } =
      [Event.signalStop (some 9)] :=
  defaultInit_registers_stored_winch envOk 9 { winch := none, out := none }
    3 4 rfl rfl

/-- Shape of a successful `engage`: nil error, the stop channel freshly
allocated from the session's allocator (and the allocator advanced), and
both loops started with that channel in the trace. -/
theorem engage_ok_shape (env : Env) (t : Session)
    (h0 : t.stopQ = none) (h1 : env.makeRaw = none) :
    ∃ t1 tr1, engage env t = (none, t1, tr1) ∧
      t1.stopQ = some t.nextStop ∧ t1.nextStop = t.nextStop + 1 ∧
      Event.startLoop LoopKind.inputLoop t.nextStop ∈ tr1 ∧
      Event.startLoop LoopKind.mainLoop t.nextStop ∈ tr1 := by
  by_cases hc : (getWinSize env t).2.2 = none ∧ (getWinSize env t).1 ≠ 0 ∧
      (getWinSize env t).2.1 ≠ 0
  · refine ⟨{ t with
        cells := ((getWinSize env t).1, (getWinSize env t).2.1),
        stopQ := some t.nextStop,
        nextStop := t.nextStop + 1 },
      [Event.makeRaw, Event.resizeCells (getWinSize env t).1 (getWinSize env t).2.1,
       Event.nonBlocking false, Event.enableMouse t.mouseFlags,
       Event.enablePasting t.pasteEnabled, Event.driverEngage,
       Event.tputs Cap.enterCA, Event.tputs Cap.enterKeypad,
       Event.tputs Cap.hideCursor, Event.tputs Cap.enableAcs, Event.tputs Cap.clear,
       Event.startLoop LoopKind.inputLoop t.nextStop,
       Event.startLoop LoopKind.mainLoop t.nextStop], ?_, ?_, ?_, ?_, ?_⟩
    · simp [engage, h0, h1, hc]
    all_goals simp
  · refine ⟨{ t with
        stopQ := some t.nextStop,
        nextStop := t.nextStop + 1 },
      [Event.makeRaw,
       Event.nonBlocking false, Event.enableMouse t.mouseFlags,
       Event.enablePasting t.pasteEnabled, Event.driverEngage,
       Event.tputs Cap.enterCA, Event.tputs Cap.enterKeypad,
       Event.tputs Cap.hideCursor, Event.tputs Cap.enableAcs, Event.tputs Cap.clear,
       Event.startLoop LoopKind.inputLoop t.nextStop,
       Event.startLoop LoopKind.mainLoop t.nextStop], ?_, ?_, ?_, ?_, ?_⟩
    · simp [engage, h0, h1, hc]
    all_goals simp

/-- Shape of a `disengage` from the Engaged state: no panic, the stop
channel field cleared to nil, the allocator untouched. -/
theorem disengage_ok_shape (t : Session) (id : Nat) (h : t.stopQ = some id) :
    ∃ t2 tr2, disengage t = (some t2, tr2) ∧ t2.stopQ = none ∧
      t2.nextStop = t.nextStop := by
  refine ⟨{ t with
      stopQ := none,
      cells := (0, 0) },
    [Event.nonBlocking true, Event.closeStop id, Event.waitLoops,
     Event.driverDisengage, Event.nonBlocking false,
     Event.resizeCells 0 0,
     Event.tputs Cap.showCursor, Event.tputs Cap.attrOff,
     Event.tputs Cap.clear, Event.tputs Cap.exitCA,
     Event.tputs Cap.exitKeypad,
     Event.enableMouse 0, Event.enablePasting false,
     Event.restore t.inFd t.saved], ?_, ?_, ?_⟩
  · simp [disengage, h]
  all_goals simp

/-- Claim C4: a successful `engage` allocates a brand-new stop channel and
hands exactly that channel to the two loops it starts; `disengage` clears
the field back to nil; hence engage → disengage → engage succeeds, and the
loop pair of the second cycle is governed by a stop channel distinct from
that of the first cycle. -/
theorem reengage_fresh_stop (env1 env2 : Env) (t : Session)
    (h0 : t.stopQ = none) (h1 : env1.makeRaw = none) (h2 : env2.makeRaw = none) :
    ∃ t1 tr1 t2 tr2 t3 tr3 id1 id2,
      engage env1 t = (none, t1, tr1) ∧ t1.stopQ = some id1 ∧
      Event.startLoop LoopKind.inputLoop id1 ∈ tr1 ∧
      Event.startLoop LoopKind.mainLoop id1 ∈ tr1 ∧
      disengage t1 = (some t2, tr2) ∧ t2.stopQ = none ∧
      engage env2 t2 = (none, t3, tr3) ∧ t3.stopQ = some id2 ∧
      Event.startLoop LoopKind.inputLoop id2 ∈ tr3 ∧
      Event.startLoop LoopKind.mainLoop id2 ∈ tr3 ∧
      id1 ≠ id2 := by
  obtain ⟨t1, tr1, he1, hs1, hn1, hm1a, hm1b⟩ := engage_ok_shape env1 t h0 h1
  obtain ⟨t2, tr2, hd2, hs2, hn2⟩ := disengage_ok_shape t1 t.nextStop hs1
  obtain ⟨t3, tr3, he3, hs3, hn3, hm3a, hm3b⟩ := engage_ok_shape env2 t2 hs2 h2
  refine ⟨t1, tr1, t2, tr2, t3, tr3, t.nextStop, t2.nextStop,
    he1, hs1, hm1a, hm1b, hd2, hs2, he3, hs3, hm3a, hm3b, ?_⟩
  rw [hn2, hn1]
  omega

/-- Witness for C4: a full engage → disengage → engage cycle at a concrete
session and environment. -/
theorem reengage_fresh_stop_witness :
    ∃ t1 tr1 t2 tr2 t3 tr3 id1 id2,
      engage envOk sessStart = (none, t1, tr1) ∧ t1.stopQ = some id1 ∧
      Event.startLoop LoopKind.inputLoop id1 ∈ tr1 ∧
      Event.startLoop LoopKind.mainLoop id1 ∈ tr1 ∧
      disengage t1 = (some t2, tr2) ∧ t2.stopQ = none ∧
      engage envOk t2 = (none, t3, tr3) ∧ t3.stopQ = some id2 ∧
      Event.startLoop LoopKind.inputLoop id2 ∈ tr3 ∧
      Event.startLoop LoopKind.mainLoop id2 ∈ tr3 ∧
      id1 ≠ id2 :=
  reengage_fresh_stop envOk envOk sessStart rfl rfl rfl

/-- Claim C6: during a successful `engage`, the cell buffer is resized to
the queried geometry exactly when the window-size query returned no error
and both dimensions are non-zero; on a query error or a zero dimension the
buffer keeps its previous value, no resize event occurs, and engage still
returns nil. -/
theorem engage_resize_iff (env : Env) (t : Session) (w h : Int) (e : Option Err)
    (h0 : t.stopQ = none) (h1 : env.makeRaw = none)
    (hw : getWinSize env t = (w, h, e)) :
    (engage env t).1 = none ∧
    (engage env t).2.1.cells =
      (if e = none ∧ w ≠ 0 ∧ h ≠ 0 then (w, h) else t.cells) ∧
    ((∃ a b, Event.resizeCells a b ∈ (engage env t).2.2) ↔
      (e = none ∧ w ≠ 0 ∧ h ≠ 0)) := by
  by_cases hc : e = none ∧ w ≠ 0 ∧ h ≠ 0
  · refine ⟨?_, ?_, ?_⟩
    · simp [engage, h0, h1, hw, hc]
    · simp [engage, h0, h1, hw, hc]
    · constructor
      · intro _
        exact hc
      · intro _
        exact ⟨w, h, by simp [engage, h0, h1, hw, hc]⟩
  · refine ⟨?_, ?_, ?_⟩
    · simp [engage, h0, h1, hw, hc]
    · simp [engage, h0, h1, hw, hc]
    · constructor
      · rintro ⟨a, b, hab⟩
        simp [engage, h0, h1, hw, hc] at hab
      · intro hcc
        exact absurd hcc hc

/-- Witness for C6: with a successful 80 by 24 query the buffer is resized
and the resize is in the trace. -/
theorem engage_resize_iff_witness :
    (engage envOk sessStart).1 = none ∧
    (engage envOk sessStart).2.1.cells =
      (if (none : Option Err) = none ∧ (80 : Int) ≠ 0 ∧ (24 : Int) ≠ 0
        then ((80 : Int), (24 : Int)) else sessStart.cells) ∧
    ((∃ a b, Event.resizeCells a b ∈ (engage envOk sessStart).2.2) ↔
      ((none : Option Err) = none ∧ (80 : Int) ≠ 0 ∧ (24 : Int) ≠ 0)) :=
  engage_resize_iff envOk sessStart 80 24 none rfl rfl rfl
